import Mathlib

/-!
Shallow embedding of `app/models.py` from the binance-rsi-dashboard
repository: the SQLModel schema layer (persisted entities, create/update
shapes with pydantic-style validation of declared constraints, and
response shapes).

Decimals are modelled exactly, as a mantissa together with a scale, so
that `Dec.mk m s` denotes the decimal number `m / 10^s` written with `s`
digits after the point; this mirrors Python `Decimal`, which keeps
trailing zeros (`Decimal "70.00"` is `⟨7000, 2⟩`). Datetimes are modelled
as an abstract tick count (`Int`).
-/

namespace RSIDash

/-- Exact decimal value as written: `mantissa / 10 ^ scale`, keeping the
declared number of digits after the point (like Python `Decimal`). -/
structure Dec where
  mantissa : Int
  scale : Nat
deriving DecidableEq, Repr

/-- Number of decimal digits of a natural number (1 for zero), the length
of Python `Decimal.as_tuple().digits`. -/
def numDigits (n : Nat) : Nat := (Nat.toDigits 10 n).length

/-- Total significant digits and digits after the point, as counted by the
pydantic decimal validator from a Decimal tuple with exponent `-scale`. -/
def Dec.digitInfo (d : Dec) : Nat × Nat :=
  let dt := numDigits d.mantissa.natAbs
  if d.scale = 0 then (dt, 0)
  else if dt < d.scale then (d.scale, d.scale)
  else (dt, d.scale)

/-- Pydantic check of `max_digits` and `decimal_places` declared on a
decimal field: total digits, digits after the point, and whole digits
must each fit. -/
def Dec.fits (maxDigits decimalPlaces : Nat) (d : Dec) : Bool :=
  let info := d.digitInfo
  info.2 ≤ decimalPlaces && info.1 ≤ maxDigits &&
    info.1 - info.2 ≤ maxDigits - decimalPlaces

/-- Exact-precision string rendering of a decimal, as Python `str` on
`Decimal`: keeps every declared digit after the point. -/
def Dec.render (d : Dec) : String :=
  let sign := if d.mantissa < 0 then "-" else ""
  let digits := toString d.mantissa.natAbs
  if d.scale = 0 then sign ++ digits
  else
    let padded :=
      if digits.length ≤ d.scale then
        String.mk (List.replicate (d.scale + 1 - digits.length) '0') ++ digits
      else digits
    sign ++ padded.take (padded.length - d.scale) ++ "." ++
      padded.drop (padded.length - d.scale)

/-- Comparison of the values denoted by two decimals. -/
def Dec.le (a b : Dec) : Bool :=
  a.mantissa * (10 : Int) ^ b.scale ≤ b.mantissa * (10 : Int) ^ a.scale

/-- Datetimes carry no structure the schema layer inspects; an abstract
tick value stands in for them. -/
abbrev DTime := Int

/-- Modelled from the spec: timestamps are serialized in a fixed
ISO-8601-like textual format; the rendering itself is external to the
schema file, so an injective textual rendering of the abstract tick
stands in for it. -/
def isoRender (t : DTime) : String := toString t

/-- Enum `NotificationStatus` (`models.py` lines 9-12): pending, sent,
dismissed, stored as strings. -/
inductive NotificationStatus where
  | pending
  | sent
  | dismissed
deriving DecidableEq, Repr

/-- String form of a `NotificationStatus` member. -/
def NotificationStatus.toStr : NotificationStatus → String
  | .pending => "pending"
  | .sent => "sent"
  | .dismissed => "dismissed"

/-- Parse a raw string into the `NotificationStatus` enum: succeeds
exactly on the declared members. -/
def NotificationStatus.ofString (s : String) : Option NotificationStatus :=
  if s = "pending" then some .pending
  else if s = "sent" then some .sent
  else if s = "dismissed" then some .dismissed
  else none

/-- Enum `AlertCondition` (`models.py` lines 15-18): overbought, oversold,
custom, stored as strings. -/
inductive AlertCondition where
  | overbought
  | oversold
  | custom
deriving DecidableEq, Repr

/-- String form of an `AlertCondition` member. -/
def AlertCondition.toStr : AlertCondition → String
  | .overbought => "overbought"
  | .oversold => "oversold"
  | .custom => "custom"

/-- Parse a raw string into the `AlertCondition` enum: succeeds exactly on
the declared members. -/
def AlertCondition.ofString (s : String) : Option AlertCondition :=
  if s = "overbought" then some .overbought
  else if s = "oversold" then some .oversold
  else if s = "custom" then some .custom
  else none

/-- String length ceiling check declared by `max_length` on a field. -/
def strOk (maxLen : Nat) (s : String) : Bool := s.length ≤ maxLen

/-- Persisted entity `CoinPair` (`models.py` lines 22-38); relationship
lists are derived views and carry no stored state of their own. -/
structure CoinPair where
  id : Int
  symbol : String
  base_asset : String
  quote_asset : String
  is_active : Bool
  created_at : DTime
  updated_at : DTime
deriving DecidableEq, Repr

/-- Persisted entity `RSIData` (`models.py` lines 41-57). -/
structure RSIData where
  id : Int
  coin_pair_id : Int
  rsi_value : Dec
  price : Dec
  volume : Dec
  timestamp : DTime
  period : Int
deriving DecidableEq, Repr

/-- Persisted entity `AlertSetting` (`models.py` lines 96-123). -/
structure AlertSetting where
  id : Int
  user_id : Int
  name : String
  condition : AlertCondition
  overbought_threshold : Dec
  oversold_threshold : Dec
  custom_threshold : Option Dec
  custom_operator : Option String
  is_enabled : Bool
  applies_to_all_pairs : Bool
  coin_pair_filters : List String
  created_at : DTime
  updated_at : DTime
deriving DecidableEq, Repr

/-- Persisted entity `RSINotification` (`models.py` lines 126-150). -/
structure RSINotification where
  id : Int
  user_id : Int
  coin_pair_id : Int
  alert_setting_id : Int
  title : String
  message : String
  rsi_value : Dec
  price_at_alert : Dec
  status : NotificationStatus
  created_at : DTime
  sent_at : Option DTime
  dismissed_at : Option DTime
deriving DecidableEq, Repr

/-- Declared numeric column constraints (`max_digits`, `decimal_places`)
of a decimal column on a persisted table. -/
structure DecColumn where
  max_digits : Nat
  decimal_places : Nat
deriving DecidableEq, Repr

/-- Declared column constraints of `RSIData.rsi_value` (`models.py`
line 48): `decimal_places=4, max_digits=8`. -/
def rsiValueColumn : DecColumn := ⟨8, 4⟩

/-- Declared column constraints of `RSIData.price` (`models.py` line 49):
`decimal_places=8, max_digits=20`. -/
def priceColumn : DecColumn := ⟨20, 8⟩

/-- Declared column constraints of `RSIData.volume` (`models.py` line 50):
`decimal_places=8, max_digits=20`. -/
def volumeColumn : DecColumn := ⟨20, 8⟩

/-- Raw input to `CoinPairCreate` (`models.py` lines 184-188): `is_active`
has a declared default and may be omitted. -/
structure CoinPairCreateInput where
  symbol : String
  base_asset : String
  quote_asset : String
  is_active : Option Bool
deriving DecidableEq, Repr

/-- Validated `CoinPairCreate` shape. -/
structure CoinPairCreate where
  symbol : String
  base_asset : String
  quote_asset : String
  is_active : Bool
deriving DecidableEq, Repr

/-- Pydantic validation generated by the `CoinPairCreate` declarations:
`symbol` at most 50 characters, `base_asset` and `quote_asset` at most 20,
`is_active` defaulting to true when omitted. -/
def validateCoinPairCreate (i : CoinPairCreateInput) :
    Except String CoinPairCreate :=
  if ¬ strOk 50 i.symbol then .error "symbol: at most 50 characters"
  else if ¬ strOk 20 i.base_asset then .error "base_asset: at most 20 characters"
  else if ¬ strOk 20 i.quote_asset then .error "quote_asset: at most 20 characters"
  else .ok ⟨i.symbol, i.base_asset, i.quote_asset, i.is_active.getD true⟩

/-- Raw input to `CoinPairUpdate` (`models.py` lines 191-195): every field
optional, defaulting to absent. -/
structure CoinPairUpdateInput where
  symbol : Option String
  base_asset : Option String
  quote_asset : Option String
  is_active : Option Bool
deriving DecidableEq, Repr

/-- Pydantic validation generated by the `CoinPairUpdate` declarations:
length ceilings are checked only on supplied fields. -/
def validateCoinPairUpdate (i : CoinPairUpdateInput) :
    Except String CoinPairUpdateInput :=
  if ¬ Option.all (strOk 50) i.symbol then .error "symbol: at most 50 characters"
  else if ¬ Option.all (strOk 20) i.base_asset then .error "base_asset: at most 20 characters"
  else if ¬ Option.all (strOk 20) i.quote_asset then .error "quote_asset: at most 20 characters"
  else .ok i

/-- Raw input to `RSIDataCreate` (`models.py` lines 198-204): `volume` and
`period` have declared defaults; `rsi_value` and `price` are plain
`Decimal` annotations with no declared length or precision constraints. -/
structure RSIDataCreateInput where
  coin_pair_id : Int
  rsi_value : Dec
  price : Dec
  volume : Option Dec
  period : Option Int
deriving DecidableEq, Repr

/-- Validated `RSIDataCreate` shape. -/
structure RSIDataCreate where
  coin_pair_id : Int
  rsi_value : Dec
  price : Dec
  volume : Dec
  period : Int
deriving DecidableEq, Repr

/-- Pydantic validation generated by the `RSIDataCreate` declarations: the
shape declares no string or decimal constraints on any field, so a typed
input always validates; omitted `volume` defaults to `Decimal "0"` and
omitted `period` to 14. -/
def validateRSIDataCreate (i : RSIDataCreateInput) :
    Except String RSIDataCreate :=
  .ok ⟨i.coin_pair_id, i.rsi_value, i.price, i.volume.getD ⟨0, 0⟩,
    i.period.getD 14⟩

/-- Raw input to `AlertSettingCreate` (`models.py` lines 217-226): the
enum-typed `condition` arrives as a raw string; threshold fields declare
`decimal_places=2, max_digits=5`; fields with declared defaults may be
omitted. -/
structure AlertSettingCreateInput where
  user_id : Int
  name : String
  condition : String
  overbought_threshold : Option Dec
  oversold_threshold : Option Dec
  custom_threshold : Option Dec
  custom_operator : Option String
  applies_to_all_pairs : Option Bool
  coin_pair_filters : Option (List String)
deriving DecidableEq, Repr

/-- Validated `AlertSettingCreate` shape. -/
structure AlertSettingCreate where
  user_id : Int
  name : String
  condition : AlertCondition
  overbought_threshold : Dec
  oversold_threshold : Dec
  custom_threshold : Option Dec
  custom_operator : Option String
  applies_to_all_pairs : Bool
  coin_pair_filters : List String
deriving DecidableEq, Repr

/-- Pydantic validation generated by the `AlertSettingCreate`
declarations: `name` at most 100 characters, `condition` a declared
`AlertCondition` member, supplied thresholds within precision 5 and scale
2, `custom_operator` at most 10 characters; defaults `70.00`, `30.00`,
`True` and `[]` fill omitted fields, and supplied values are kept exactly
as given, never truncated. -/
def validateAlertSettingCreate (i : AlertSettingCreateInput) :
    Except String AlertSettingCreate :=
  if ¬ strOk 100 i.name then .error "name: at most 100 characters"
  else
    match AlertCondition.ofString i.condition with
    | none => .error "condition: not a declared AlertCondition member"
    | some c =>
      if ¬ Option.all (Dec.fits 5 2) i.overbought_threshold then
        .error "overbought_threshold: precision 5 scale 2 exceeded"
      else if ¬ Option.all (Dec.fits 5 2) i.oversold_threshold then
        .error "oversold_threshold: precision 5 scale 2 exceeded"
      else if ¬ Option.all (Dec.fits 5 2) i.custom_threshold then
        .error "custom_threshold: precision 5 scale 2 exceeded"
      else if ¬ Option.all (strOk 10) i.custom_operator then
        .error "custom_operator: at most 10 characters"
      else
        .ok ⟨i.user_id, i.name, c,
          i.overbought_threshold.getD ⟨7000, 2⟩,
          i.oversold_threshold.getD ⟨3000, 2⟩,
          i.custom_threshold, i.custom_operator,
          i.applies_to_all_pairs.getD true,
          i.coin_pair_filters.getD []⟩

/-- Raw input to `AlertSettingUpdate` (`models.py` lines 229-238): every
field optional, defaulting to absent; `condition` arrives as a raw
string when supplied. -/
structure AlertSettingUpdateInput where
  name : Option String
  condition : Option String
  overbought_threshold : Option Dec
  oversold_threshold : Option Dec
  custom_threshold : Option Dec
  custom_operator : Option String
  is_enabled : Option Bool
  applies_to_all_pairs : Option Bool
  coin_pair_filters : Option (List String)
deriving DecidableEq, Repr

/-- Validated `AlertSettingUpdate` shape: every field optional, absent
fields stay absent. -/
structure AlertSettingUpdate where
  name : Option String
  condition : Option AlertCondition
  overbought_threshold : Option Dec
  oversold_threshold : Option Dec
  custom_threshold : Option Dec
  custom_operator : Option String
  is_enabled : Option Bool
  applies_to_all_pairs : Option Bool
  coin_pair_filters : Option (List String)
deriving DecidableEq, Repr

/-- Parse an optional raw enum string: absent stays absent, a supplied
string must name a declared `AlertCondition` member. -/
def parseOptCondition : Option String → Except String (Option AlertCondition)
  | none => .ok none
  | some s =>
    match AlertCondition.ofString s with
    | none => .error "condition: not a declared AlertCondition member"
    | some c => .ok (some c)

/-- Pydantic validation generated by the `AlertSettingUpdate`
declarations: constraints are checked only on supplied fields, and no
create-time default is applied to absent ones. -/
def validateAlertSettingUpdate (i : AlertSettingUpdateInput) :
    Except String AlertSettingUpdate :=
  if ¬ Option.all (strOk 100) i.name then .error "name: at most 100 characters"
  else
    match parseOptCondition i.condition with
    | .error e => .error e
    | .ok c =>
      if ¬ Option.all (Dec.fits 5 2) i.overbought_threshold then
        .error "overbought_threshold: precision 5 scale 2 exceeded"
      else if ¬ Option.all (Dec.fits 5 2) i.oversold_threshold then
        .error "oversold_threshold: precision 5 scale 2 exceeded"
      else if ¬ Option.all (Dec.fits 5 2) i.custom_threshold then
        .error "custom_threshold: precision 5 scale 2 exceeded"
      else if ¬ Option.all (strOk 10) i.custom_operator then
        .error "custom_operator: at most 10 characters"
      else
        .ok ⟨i.name, c, i.overbought_threshold, i.oversold_threshold,
          i.custom_threshold, i.custom_operator, i.is_enabled,
          i.applies_to_all_pairs, i.coin_pair_filters⟩

/-- Raw input to `NotificationCreate` (`models.py` lines 253-260): every
field is required; the shape exposes no `status`, `sent_at` or
`dismissed_at` field, and its decimal fields are plain `Decimal`
annotations with no declared precision constraints. -/
structure NotificationCreate where
  user_id : Int
  coin_pair_id : Int
  alert_setting_id : Int
  title : String
  message : String
  rsi_value : Dec
  price_at_alert : Dec
deriving DecidableEq, Repr

/-- Pydantic validation generated by the `NotificationCreate`
declarations: `title` at most 200 characters and `message` at most 1000;
nothing else is constrained. -/
def validateNotificationCreate (i : NotificationCreate) :
    Except String NotificationCreate :=
  if ¬ strOk 200 i.title then .error "title: at most 200 characters"
  else if ¬ strOk 1000 i.message then .error "message: at most 1000 characters"
  else .ok i

/-- Modelled from the spec: insertion of a validated `CoinPairCreate`
into the `coin_pairs` table is not in the supplied source; per the spec,
the stored row takes the create-shape fields and fills the remaining
columns from their declared defaults (`id` generated, timestamps from the
default factory). -/
def mkCoinPair (c : CoinPairCreate) (idv : Int) (now : DTime) : CoinPair :=
  ⟨idv, c.symbol, c.base_asset, c.quote_asset, c.is_active, now, now⟩

/-- Modelled from the spec: insertion of a validated `RSIDataCreate` into
the `rsi_data` table; the stored row takes the create-shape fields and
fills `id` and `timestamp` from their declared defaults. -/
def mkRSIData (r : RSIDataCreate) (idv : Int) (now : DTime) : RSIData :=
  ⟨idv, r.coin_pair_id, r.rsi_value, r.price, r.volume, now, r.period⟩

/-- Modelled from the spec: insertion of a validated `AlertSettingCreate`
into the `alert_settings` table; `is_enabled` is absent from the create
shape and takes its declared table default `True`. -/
def mkAlertSetting (a : AlertSettingCreate) (idv : Int) (now : DTime) :
    AlertSetting :=
  ⟨idv, a.user_id, a.name, a.condition, a.overbought_threshold,
    a.oversold_threshold, a.custom_threshold, a.custom_operator, true,
    a.applies_to_all_pairs, a.coin_pair_filters, now, now⟩

/-- Modelled from the spec: insertion of a validated `NotificationCreate`
into the `rsi_notifications` table; `status`, `sent_at` and `dismissed_at`
are absent from the create shape and take their declared table defaults
`PENDING`, `None` and `None`. -/
def mkNotification (n : NotificationCreate) (idv : Int) (now : DTime) :
    RSINotification :=
  ⟨idv, n.user_id, n.coin_pair_id, n.alert_setting_id, n.title, n.message,
    n.rsi_value, n.price_at_alert, .pending, now, none, none⟩

/-- Modelled from the spec: applying a validated partial update to a
stored row mutates exactly the supplied fields; absent fields must not
overwrite existing values. -/
def applyCoinPairUpdate (e : CoinPair) (u : CoinPairUpdateInput) : CoinPair :=
  ⟨e.id, u.symbol.getD e.symbol, u.base_asset.getD e.base_asset,
    u.quote_asset.getD e.quote_asset, u.is_active.getD e.is_active,
    e.created_at, e.updated_at⟩

/-- Modelled from the spec: applying a validated `AlertSettingUpdate` to a
stored row mutates exactly the supplied fields; absent fields must not
overwrite existing values and create-time defaults are never re-applied. -/
def applyAlertSettingUpdate (e : AlertSetting) (u : AlertSettingUpdate) :
    AlertSetting :=
  ⟨e.id, e.user_id, u.name.getD e.name, u.condition.getD e.condition,
    u.overbought_threshold.getD e.overbought_threshold,
    u.oversold_threshold.getD e.oversold_threshold,
    (match u.custom_threshold with
      | some d => some d
      | none => e.custom_threshold),
    (match u.custom_operator with
      | some s => some s
      | none => e.custom_operator),
    u.is_enabled.getD e.is_enabled,
    u.applies_to_all_pairs.getD e.applies_to_all_pairs,
    u.coin_pair_filters.getD e.coin_pair_filters,
    e.created_at, e.updated_at⟩

/-- Response shape `RSIDataResponse` (`models.py` lines 272-279): decimals
serialized as strings, timestamp as ISO text; the shape carries the pair
symbol and no foreign-key field. -/
structure RSIDataResponse where
  id : Int
  symbol : String
  rsi_value : String
  price : String
  volume : String
  timestamp : String
  period : Int
deriving DecidableEq, Repr

/-- Response shape `CoinPairResponse` (`models.py` lines 282-289). -/
structure CoinPairResponse where
  id : Int
  symbol : String
  base_asset : String
  quote_asset : String
  is_active : Bool
  created_at : String
  latest_rsi : Option String
deriving DecidableEq, Repr

/-- Response shape `NotificationResponse` (`models.py` lines 292-300). -/
structure NotificationResponse where
  id : Int
  title : String
  message : String
  symbol : String
  rsi_value : String
  price_at_alert : String
  status : NotificationStatus
  created_at : String
deriving DecidableEq, Repr

/-- Modelled from the spec: `to_response` projection of a stored `RSIData`
row joined with its `CoinPair` into the declared `RSIDataResponse` shape,
rendering decimals as exact-precision strings and the timestamp as ISO
text. -/
def rsiDataToResponse (r : RSIData) (pair : CoinPair) : RSIDataResponse :=
  ⟨r.id, pair.symbol, r.rsi_value.render, r.price.render, r.volume.render,
    isoRender r.timestamp, r.period⟩

/-- Modelled from the spec: `to_response` projection of a stored
`CoinPair` row, optionally joined with its latest RSI sample, into the
declared `CoinPairResponse` shape. -/
def coinPairToResponse (c : CoinPair) (latest : Option Dec) :
    CoinPairResponse :=
  ⟨c.id, c.symbol, c.base_asset, c.quote_asset, c.is_active,
    isoRender c.created_at, latest.map Dec.render⟩

/-- Modelled from the spec: `to_response` projection of a stored
`RSINotification` row joined with its `CoinPair` into the declared
`NotificationResponse` shape. -/
def notificationToResponse (n : RSINotification) (pair : CoinPair) :
    NotificationResponse :=
  ⟨n.id, n.title, n.message, pair.symbol, n.rsi_value.render,
    n.price_at_alert.render, n.status, isoRender n.created_at⟩

/-- Modelled from the spec: the permitted notification status transitions
are pending to sent and pending to dismissed; no other transition is
permitted. -/
def allowedTransition : NotificationStatus → NotificationStatus → Bool
  | .pending, .sent => true
  | .pending, .dismissed => true
  | _, _ => false

/-- Run a sequence of requested status updates from a starting status,
permitting each step only when `allowedTransition` allows it; a forbidden
step rejects the whole sequence. -/
def runTransitions :
    NotificationStatus → List NotificationStatus → Option NotificationStatus
  | s, [] => some s
  | s, t :: ts => if allowedTransition s t then runTransitions t ts else none

/-- A successful `CoinPairCreate` validation returns the input fields
unchanged, with the default filled for an omitted `is_active`. -/
theorem validateCoinPairCreate_ok_proj {i : CoinPairCreateInput}
    {c : CoinPairCreate} (h : validateCoinPairCreate i = .ok c) :
    c = ⟨i.symbol, i.base_asset, i.quote_asset, i.is_active.getD true⟩ := by
  unfold validateCoinPairCreate at h
  split at h
  · cases h
  · split at h
    · cases h
    · split at h
      · cases h
      · exact (Except.ok.inj h).symm

/-- A successful `CoinPairCreate` validation implies all declared length
ceilings hold on the input. -/
theorem validateCoinPairCreate_ok_len {i : CoinPairCreateInput}
    {c : CoinPairCreate} (h : validateCoinPairCreate i = .ok c) :
    i.symbol.length ≤ 50 ∧ i.base_asset.length ≤ 20 ∧
      i.quote_asset.length ≤ 20 := by
  unfold validateCoinPairCreate at h
  split at h
  · cases h
  · split at h
    · cases h
    · split at h
      · cases h
      · simp_all [strOk]

/-- A successful `NotificationCreate` validation returns the input
unchanged. -/
theorem validateNotificationCreate_ok_proj {n m : NotificationCreate}
    (h : validateNotificationCreate n = .ok m) : m = n := by
  unfold validateNotificationCreate at h
  split at h
  · cases h
  · split at h
    · cases h
    · exact (Except.ok.inj h).symm

/-- A successful `AlertSettingCreate` validation returns the input fields
unchanged, with the declared defaults filled for omitted fields and the
condition string parsed into the enum. -/
theorem validateAlertSettingCreate_ok_proj {i : AlertSettingCreateInput}
    {v : AlertSettingCreate} (h : validateAlertSettingCreate i = .ok v) :
    v.user_id = i.user_id ∧ v.name = i.name ∧
      AlertCondition.ofString i.condition = some v.condition ∧
      v.overbought_threshold = i.overbought_threshold.getD ⟨7000, 2⟩ ∧
      v.oversold_threshold = i.oversold_threshold.getD ⟨3000, 2⟩ ∧
      v.custom_threshold = i.custom_threshold ∧
      v.custom_operator = i.custom_operator ∧
      v.applies_to_all_pairs = i.applies_to_all_pairs.getD true ∧
      v.coin_pair_filters = i.coin_pair_filters.getD [] := by
  unfold validateAlertSettingCreate at h
  split at h
  · cases h
  · split at h
    · cases h
    · rename_i c heq
      split at h
      · cases h
      · split at h
        · cases h
        · split at h
          · cases h
          · split at h
            · cases h
            · have hv := Except.ok.inj h
              subst hv
              exact ⟨rfl, rfl, heq, rfl, rfl, rfl, rfl, rfl, rfl⟩

/-- A decimal whose digits after the point exceed the declared scale, or
whose total digits exceed the declared precision, fails the pydantic
decimal check. -/
theorem Dec.fits_eq_false {maxDigits decimalPlaces : Nat} {d : Dec}
    (h : decimalPlaces < (d.digitInfo).2 ∨ maxDigits < (d.digitInfo).1) :
    Dec.fits maxDigits decimalPlaces d = false := by
  unfold Dec.fits
  rcases h with h | h <;> simp [Bool.and_eq_false_iff] <;> omega

/-- An `AlertSettingCreate` input whose supplied `overbought_threshold`
fails the declared decimal check is rejected. -/
theorem validateAlertSettingCreate_rejects_overbought
    {i : AlertSettingCreateInput} {d : Dec}
    (hd : i.overbought_threshold = some d) (hfit : Dec.fits 5 2 d = false) :
    ∃ e, validateAlertSettingCreate i = .error e := by
  unfold validateAlertSettingCreate
  split
  · exact ⟨_, rfl⟩
  · split
    · exact ⟨_, rfl⟩
    · rw [hd]
      simp [Option.all, hfit]

/-- An `AlertSettingCreate` input whose condition string is not a declared
enum member is rejected. -/
theorem validateAlertSettingCreate_rejects_condition
    {i : AlertSettingCreateInput}
    (hc : AlertCondition.ofString i.condition = none) :
    ∃ e, validateAlertSettingCreate i = .error e := by
  unfold validateAlertSettingCreate
  split
  · exact ⟨_, rfl⟩
  · split
    · exact ⟨_, rfl⟩
    · simp_all

/-- An `AlertSettingUpdate` input whose supplied condition string is not a
declared enum member is rejected. -/
theorem validateAlertSettingUpdate_rejects_condition
    {i : AlertSettingUpdateInput} {s : String} (hs : i.condition = some s)
    (hc : AlertCondition.ofString s = none) :
    ∃ e, validateAlertSettingUpdate i = .error e := by
  unfold validateAlertSettingUpdate
  split
  · exact ⟨_, rfl⟩
  · split
    · exact ⟨_, rfl⟩
    · rename_i c hp
      rw [hs] at hp
      simp [parseOptCondition, hc] at hp

/-- Claim C9: the notification create shape carries no status or delivery
timestamps, so every `RSINotification` row constructed from a
`NotificationCreate` input starts with status pending, `sent_at` absent
and `dismissed_at` absent. -/
theorem c9_notification_initial_state (n : NotificationCreate) (idv : Int)
    (now : DTime) :
    (mkNotification n idv now).status = NotificationStatus.pending ∧
      (mkNotification n idv now).sent_at = none ∧
      (mkNotification n idv now).dismissed_at = none :=
  ⟨rfl, rfl, rfl⟩

/-- Claim C7: the permitted notification status transitions are exactly
pending to sent and pending to dismissed, every permitted transition
leaves the pending status and never targets it, and a run of permitted
transitions ends at pending only when it is the empty run starting at
pending: once a notification leaves pending, no permitted sequence
returns it to pending. -/
theorem c7_status_monotonic :
    allowedTransition .pending .sent = true ∧
      allowedTransition .pending .dismissed = true ∧
      (∀ s t, allowedTransition s t = true →
        s = NotificationStatus.pending ∧ t ≠ NotificationStatus.pending) ∧
      (∀ s ts t, runTransitions s ts = some t →
        t = NotificationStatus.pending →
        s = NotificationStatus.pending ∧ ts = []) := by
  refine ⟨rfl, rfl, ?_, ?_⟩
  · intro s t h
    cases s <;> cases t <;> simp_all [allowedTransition]
  · intro s ts
    induction ts generalizing s with
    | nil => intro t h ht; simp [runTransitions] at h; simp [h, ht]
    | cons x xs ih =>
      intro t h ht
      unfold runTransitions at h
      split at h
      · rcases ih x t h ht with ⟨hx, _⟩
        rename_i hall
        cases s <;> cases x <;> simp_all [allowedTransition]
      · cases h

/-- A string parsing to an `AlertCondition` member equals that member's
canonical string form. -/
theorem AlertCondition.ofString_some {s : String} {c : AlertCondition}
    (h : AlertCondition.ofString s = some c) : s = c.toStr := by
  unfold AlertCondition.ofString at h
  split at h
  · cases Option.some.inj h; simp_all [AlertCondition.toStr]
  · split at h
    · cases Option.some.inj h; simp_all [AlertCondition.toStr]
    · split at h
      · cases Option.some.inj h; simp_all [AlertCondition.toStr]
      · cases h

/-- `AlertCondition.ofString` succeeds exactly on the three declared
member strings. -/
theorem alertOfString_isSome_iff (s : String) :
    (AlertCondition.ofString s).isSome = true ↔
      s = "overbought" ∨ s = "oversold" ∨ s = "custom" := by
  constructor
  · intro h
    unfold AlertCondition.ofString at h
    split at h
    · rename_i hs; exact Or.inl hs
    · split at h
      · rename_i hs; exact Or.inr (Or.inl hs)
      · split at h
        · rename_i hs; exact Or.inr (Or.inr hs)
        · cases h
  · intro h
    rcases h with h | h | h <;> subst h <;> decide

/-- `NotificationStatus.ofString` succeeds exactly on the three declared
member strings. -/
theorem statusOfString_isSome_iff (s : String) :
    (NotificationStatus.ofString s).isSome = true ↔
      s = "pending" ∨ s = "sent" ∨ s = "dismissed" := by
  constructor
  · intro h
    unfold NotificationStatus.ofString at h
    split at h
    · rename_i hs; exact Or.inl hs
    · split at h
      · rename_i hs; exact Or.inr (Or.inl hs)
      · split at h
        · rename_i hs; exact Or.inr (Or.inr hs)
        · cases h
  · intro h
    rcases h with h | h | h <;> subst h <;> decide

/-- Claim C1 (counterexample): the `RSIDataCreate` shape declares no
precision constraint on `rsi_value`, so the input rendering as
`12345.12345` — five digits after the point, failing the table column's
declared scale 4 and precision 8 — is accepted unchanged by
`validate_create`, not rejected. -/
theorem c1_overprecision_counterexample :
    validateRSIDataCreate ⟨1, ⟨1234512345, 5⟩, ⟨1, 0⟩, none, none⟩ =
      Except.ok ⟨1, ⟨1234512345, 5⟩, ⟨1, 0⟩, ⟨0, 0⟩, 14⟩ ∧
      Dec.render ⟨1234512345, 5⟩ = "12345.12345" ∧
      (Dec.digitInfo ⟨1234512345, 5⟩).2 = 5 ∧
      Dec.fits 8 4 ⟨1234512345, 5⟩ = false :=
  ⟨rfl, by decide, by decide, by decide⟩

/-- Claim C1 (amended): create-shape decimal fields that declare precision
constraints — the `AlertSettingCreate` thresholds, precision 5 and scale
2 — reject any supplied value whose digits after the point exceed the
scale or whose total digits exceed the precision, and accepted values are
kept exactly as given, never truncated; the `RSIDataCreate` decimal
fields declare no precision constraints and accept every decimal value
unchanged, including `12345.12345` for `rsi_value`. -/
theorem c1_overprecision_rejected_amended :
    (∀ (i : AlertSettingCreateInput) (d : Dec),
        i.overbought_threshold = some d →
        (2 < (Dec.digitInfo d).2 ∨ 5 < (Dec.digitInfo d).1) →
        ∃ e, validateAlertSettingCreate i = .error e) ∧
      (∀ (i : AlertSettingCreateInput) (v : AlertSettingCreate) (d : Dec),
        validateAlertSettingCreate i = .ok v →
        i.overbought_threshold = some d → v.overbought_threshold = d) ∧
      (∀ i : RSIDataCreateInput, ∃ r, validateRSIDataCreate i = .ok r ∧
        r.rsi_value = i.rsi_value) := by
  refine ⟨?_, ?_, ?_⟩
  · intro i d hd hbad
    exact validateAlertSettingCreate_rejects_overbought hd (Dec.fits_eq_false hbad)
  · intro i v d hok hd
    rw [(validateAlertSettingCreate_ok_proj hok).2.2.2.1, hd]
    rfl
  · intro i
    exact ⟨_, rfl, rfl⟩

/-- Witness for the amended claim C1 at concrete inputs: an overbought
threshold with five digits after the point is rejected, an in-range one
is kept exactly, and the over-precision RSI value is accepted. -/
theorem c1_overprecision_rejected_amended_witness :
    (∃ e, validateAlertSettingCreate
        ⟨1, "a", "overbought", some ⟨1234512345, 5⟩, none, none, none,
          none, none⟩ = .error e) ∧
      (AlertSettingCreate.mk 1 "a" .overbought ⟨12345, 2⟩ ⟨3000, 2⟩ none
          none true []).overbought_threshold = ⟨12345, 2⟩ ∧
      (∃ r, validateRSIDataCreate ⟨1, ⟨1234512345, 5⟩, ⟨1, 0⟩, none,
          none⟩ = .ok r ∧ r.rsi_value = ⟨1234512345, 5⟩) :=
  ⟨c1_overprecision_rejected_amended.1
      ⟨1, "a", "overbought", some ⟨1234512345, 5⟩, none, none, none, none,
        none⟩ ⟨1234512345, 5⟩ rfl (by decide),
    c1_overprecision_rejected_amended.2.1
      ⟨1, "a", "overbought", some ⟨12345, 2⟩, none, none, none, none, none⟩
      (AlertSettingCreate.mk 1 "a" .overbought ⟨12345, 2⟩ ⟨3000, 2⟩ none
        none true []) ⟨12345, 2⟩ rfl rfl,
    c1_overprecision_rejected_amended.2.2
      ⟨1, ⟨1234512345, 5⟩, ⟨1, 0⟩, none, none⟩⟩

/-- Claim C8 (counterexample): a value of 150.0000 fits the declared
precision of the `rsi_value` column, is accepted by `validate_create`
unchanged, and can therefore sit in a stored `RSIData` row while lying
outside the interval from 0 to 100. -/
theorem c8_rsi_bound_counterexample :
    validateRSIDataCreate ⟨1, ⟨1500000, 4⟩, ⟨1, 0⟩, none, none⟩ =
      Except.ok ⟨1, ⟨1500000, 4⟩, ⟨1, 0⟩, ⟨0, 0⟩, 14⟩ ∧
      (mkRSIData ⟨1, ⟨1500000, 4⟩, ⟨1, 0⟩, ⟨0, 0⟩, 14⟩ 1
          (0 : Int)).rsi_value = ⟨1500000, 4⟩ ∧
      Dec.fits 8 4 ⟨1500000, 4⟩ = true ∧
      Dec.le ⟨1500000, 4⟩ ⟨100, 0⟩ = false ∧
      Dec.render ⟨1500000, 4⟩ = "150.0000" :=
  ⟨rfl, rfl, by decide, by decide, by decide⟩

/-- Claim C8 (amended): the declared storage precision is 4 decimal
digits after the point for `rsi_value` (total 8) and 8 after the point
for `price` and `volume` (total 20), but the interval bound from 0 to 100
on `rsi_value` is conceptual only: no validation enforces it, and
`validate_create` accepts every decimal value unchanged. -/
theorem c8_rsi_precision_amended :
    rsiValueColumn.decimal_places = 4 ∧ rsiValueColumn.max_digits = 8 ∧
      priceColumn.decimal_places = 8 ∧ priceColumn.max_digits = 20 ∧
      volumeColumn.decimal_places = 8 ∧ volumeColumn.max_digits = 20 ∧
      (∀ i : RSIDataCreateInput, ∃ r, validateRSIDataCreate i = .ok r ∧
        r.rsi_value = i.rsi_value) := by
  refine ⟨rfl, rfl, rfl, rfl, rfl, rfl, ?_⟩
  intro i
  exact ⟨_, rfl, rfl⟩

/-- Claim C2 (counterexample): an accepted `RSIDataCreate` input with
`coin_pair_id` 7 projects to an `RSIDataResponse` in which no field
carries the value 7 in any rendering: the shape has no foreign-key field
and carries the joined pair's symbol instead, so not every input field
reappears. -/
theorem c2_roundtrip_counterexample :
    validateRSIDataCreate ⟨7, ⟨555, 1⟩, ⟨10, 0⟩, none, none⟩ =
      Except.ok ⟨7, ⟨555, 1⟩, ⟨10, 0⟩, ⟨0, 0⟩, 14⟩ ∧
      (let resp := rsiDataToResponse
          (mkRSIData ⟨7, ⟨555, 1⟩, ⟨10, 0⟩, ⟨0, 0⟩, 14⟩ 1 (5 : Int))
          ⟨7, "BTCUSDT", "BTC", "USDT", true, 3, 3⟩;
        resp.id ≠ 7 ∧ resp.period ≠ 7 ∧ resp.symbol ≠ "7" ∧
          resp.rsi_value ≠ "7" ∧ resp.price ≠ "7" ∧ resp.volume ≠ "7" ∧
          resp.timestamp ≠ "7") :=
  ⟨rfl, by decide⟩

/-- Claim C2 (amended): for every accepted create input, each supplied
field that has a corresponding field in the response shape reappears with
its value unchanged up to type rendering — decimals as exact-precision
strings, timestamps as ISO text; the foreign-key fields
(`RSIData.coin_pair_id`; notification `user_id`, `coin_pair_id`,
`alert_setting_id`) have no corresponding response field and do not
reappear, the response carrying the joined pair's symbol instead. -/
theorem c2_roundtrip_amended :
    (∀ (i : CoinPairCreateInput) (c : CoinPairCreate),
        validateCoinPairCreate i = .ok c →
        ∀ (idv : Int) (now : DTime) (latest : Option Dec),
          (coinPairToResponse (mkCoinPair c idv now) latest).symbol =
              i.symbol ∧
            (coinPairToResponse (mkCoinPair c idv now) latest).base_asset =
              i.base_asset ∧
            (coinPairToResponse (mkCoinPair c idv now) latest).quote_asset =
              i.quote_asset ∧
            ∀ b, i.is_active = some b →
              (coinPairToResponse (mkCoinPair c idv now) latest).is_active =
                b) ∧
      (∀ (i : RSIDataCreateInput) (r : RSIDataCreate),
        validateRSIDataCreate i = .ok r →
        ∀ (idv : Int) (now : DTime) (pair : CoinPair),
          (rsiDataToResponse (mkRSIData r idv now) pair).rsi_value =
              (i.rsi_value).render ∧
            (rsiDataToResponse (mkRSIData r idv now) pair).price =
              (i.price).render ∧
            (∀ d, i.volume = some d →
              (rsiDataToResponse (mkRSIData r idv now) pair).volume =
                Dec.render d) ∧
            ∀ p, i.period = some p →
              (rsiDataToResponse (mkRSIData r idv now) pair).period = p) ∧
      ∀ (n m : NotificationCreate), validateNotificationCreate n = .ok m →
        ∀ (idv : Int) (now : DTime) (pair : CoinPair),
          (notificationToResponse (mkNotification m idv now) pair).title =
              n.title ∧
            (notificationToResponse (mkNotification m idv now) pair).message =
              n.message ∧
            (notificationToResponse (mkNotification m idv now) pair).rsi_value =
              (n.rsi_value).render ∧
            (notificationToResponse (mkNotification m idv now)
                pair).price_at_alert = (n.price_at_alert).render := by
  refine ⟨?_, ?_, ?_⟩
  · intro i c hok idv now latest
    have hc := validateCoinPairCreate_ok_proj hok
    subst hc
    refine ⟨rfl, rfl, rfl, ?_⟩
    intro b hb
    simp [coinPairToResponse, mkCoinPair, hb]
  · intro i r hok idv now pair
    unfold validateRSIDataCreate at hok
    have hr := Except.ok.inj hok
    subst hr
    refine ⟨rfl, rfl, ?_, ?_⟩
    · intro d hd
      simp [rsiDataToResponse, mkRSIData, hd]
    · intro p hp
      simp [rsiDataToResponse, mkRSIData, hp]
  · intro n m hok idv now pair
    have hm := validateNotificationCreate_ok_proj hok
    subst hm
    exact ⟨rfl, rfl, rfl, rfl⟩

/-- Witness for the amended claim C2 at concrete accepted inputs for all
three create shapes. -/
theorem c2_roundtrip_amended_witness :
    ((coinPairToResponse
          (mkCoinPair ⟨"BTCUSDT", "BTC", "USDT", true⟩ 1 (0 : Int))
          none).symbol = "BTCUSDT" ∧
        (coinPairToResponse
          (mkCoinPair ⟨"BTCUSDT", "BTC", "USDT", true⟩ 1 (0 : Int))
          none).base_asset = "BTC" ∧
        (coinPairToResponse
          (mkCoinPair ⟨"BTCUSDT", "BTC", "USDT", true⟩ 1 (0 : Int))
          none).quote_asset = "USDT" ∧
        ∀ b, (some true : Option Bool) = some b →
          (coinPairToResponse
            (mkCoinPair ⟨"BTCUSDT", "BTC", "USDT", true⟩ 1 (0 : Int))
            none).is_active = b) ∧
      ((rsiDataToResponse
          (mkRSIData ⟨7, ⟨555, 1⟩, ⟨10, 0⟩, ⟨20, 0⟩, 10⟩ 1 (5 : Int))
          ⟨7, "BTCUSDT", "BTC", "USDT", true, 3, 3⟩).rsi_value =
          Dec.render ⟨555, 1⟩ ∧
        (rsiDataToResponse
          (mkRSIData ⟨7, ⟨555, 1⟩, ⟨10, 0⟩, ⟨20, 0⟩, 10⟩ 1 (5 : Int))
          ⟨7, "BTCUSDT", "BTC", "USDT", true, 3, 3⟩).price =
          Dec.render ⟨10, 0⟩ ∧
        (∀ d, (some ⟨20, 0⟩ : Option Dec) = some d →
          (rsiDataToResponse
            (mkRSIData ⟨7, ⟨555, 1⟩, ⟨10, 0⟩, ⟨20, 0⟩, 10⟩ 1 (5 : Int))
            ⟨7, "BTCUSDT", "BTC", "USDT", true, 3, 3⟩).volume =
            Dec.render d) ∧
        ∀ p, (some 10 : Option Int) = some p →
          (rsiDataToResponse
            (mkRSIData ⟨7, ⟨555, 1⟩, ⟨10, 0⟩, ⟨20, 0⟩, 10⟩ 1 (5 : Int))
            ⟨7, "BTCUSDT", "BTC", "USDT", true, 3, 3⟩).period = p) ∧
      ((notificationToResponse
          (mkNotification ⟨1, 7, 2, "hi", "msg", ⟨555, 1⟩, ⟨10, 0⟩⟩ 1
            (0 : Int))
          ⟨7, "BTCUSDT", "BTC", "USDT", true, 3, 3⟩).title = "hi" ∧
        (notificationToResponse
          (mkNotification ⟨1, 7, 2, "hi", "msg", ⟨555, 1⟩, ⟨10, 0⟩⟩ 1
            (0 : Int))
          ⟨7, "BTCUSDT", "BTC", "USDT", true, 3, 3⟩).message = "msg" ∧
        (notificationToResponse
          (mkNotification ⟨1, 7, 2, "hi", "msg", ⟨555, 1⟩, ⟨10, 0⟩⟩ 1
            (0 : Int))
          ⟨7, "BTCUSDT", "BTC", "USDT", true, 3, 3⟩).rsi_value =
          Dec.render ⟨555, 1⟩ ∧
        (notificationToResponse
          (mkNotification ⟨1, 7, 2, "hi", "msg", ⟨555, 1⟩, ⟨10, 0⟩⟩ 1
            (0 : Int))
          ⟨7, "BTCUSDT", "BTC", "USDT", true, 3, 3⟩).price_at_alert =
          Dec.render ⟨10, 0⟩) :=
  ⟨c2_roundtrip_amended.1 ⟨"BTCUSDT", "BTC", "USDT", some true⟩
      ⟨"BTCUSDT", "BTC", "USDT", true⟩ rfl 1 (0 : Int) none,
    c2_roundtrip_amended.2.1 ⟨7, ⟨555, 1⟩, ⟨10, 0⟩, some ⟨20, 0⟩, some 10⟩
      ⟨7, ⟨555, 1⟩, ⟨10, 0⟩, ⟨20, 0⟩, 10⟩ rfl 1 (5 : Int)
      ⟨7, "BTCUSDT", "BTC", "USDT", true, 3, 3⟩,
    c2_roundtrip_amended.2.2 ⟨1, 7, 2, "hi", "msg", ⟨555, 1⟩, ⟨10, 0⟩⟩
      ⟨1, 7, 2, "hi", "msg", ⟨555, 1⟩, ⟨10, 0⟩⟩ rfl 1 (0 : Int)
      ⟨7, "BTCUSDT", "BTC", "USDT", true, 3, 3⟩⟩

/-- Claim C3: every declared create-shape default fills its field exactly
when the field is omitted — period 14 for RSI samples, thresholds 70.00
and 30.00 and applies-to-all-pairs true for alert settings, and is_active
true for a coin pair, through to the stored entity. -/
theorem c3_declared_defaults :
    Dec.render ⟨7000, 2⟩ = "70.00" ∧ Dec.render ⟨3000, 2⟩ = "30.00" ∧
      (∀ (i : RSIDataCreateInput) (r : RSIDataCreate), i.period = none →
        validateRSIDataCreate i = .ok r → r.period = 14) ∧
      (∀ (a : AlertSettingCreateInput) (v : AlertSettingCreate),
        validateAlertSettingCreate a = .ok v →
        (a.overbought_threshold = none →
            v.overbought_threshold = ⟨7000, 2⟩) ∧
          (a.oversold_threshold = none → v.oversold_threshold = ⟨3000, 2⟩) ∧
          (a.applies_to_all_pairs = none → v.applies_to_all_pairs = true)) ∧
      ∀ (i : CoinPairCreateInput) (c : CoinPairCreate), i.is_active = none →
        validateCoinPairCreate i = .ok c →
        ∀ (idv : Int) (now : DTime), (mkCoinPair c idv now).is_active =
          true := by
  refine ⟨by decide, by decide, ?_, ?_, ?_⟩
  · intro i r hp hok
    unfold validateRSIDataCreate at hok
    have hr := Except.ok.inj hok
    subst hr
    simp [hp]
  · intro a v hok
    have hp := validateAlertSettingCreate_ok_proj hok
    refine ⟨?_, ?_, ?_⟩
    · intro h; rw [hp.2.2.2.1, h]; rfl
    · intro h; rw [hp.2.2.2.2.1, h]; rfl
    · intro h; rw [hp.2.2.2.2.2.2.2.1, h]; rfl
  · intro i c ha hok idv now
    have hc := validateCoinPairCreate_ok_proj hok
    subst hc
    simp [mkCoinPair, ha]

/-- Witness for claim C3 at concrete inputs omitting the defaulted
fields. -/
theorem c3_declared_defaults_witness :
    (RSIDataCreate.mk 1 ⟨555, 1⟩ ⟨10, 0⟩ ⟨0, 0⟩ 14).period = 14 ∧
      ((AlertSettingCreate.mk 1 "a" .overbought ⟨7000, 2⟩ ⟨3000, 2⟩ none
          none true []).overbought_threshold = ⟨7000, 2⟩ ∧
        (AlertSettingCreate.mk 1 "a" .overbought ⟨7000, 2⟩ ⟨3000, 2⟩ none
          none true []).oversold_threshold = ⟨3000, 2⟩ ∧
        (AlertSettingCreate.mk 1 "a" .overbought ⟨7000, 2⟩ ⟨3000, 2⟩ none
          none true []).applies_to_all_pairs = true) ∧
      (mkCoinPair ⟨"BTCUSDT", "BTC", "USDT", true⟩ 1 (0 : Int)).is_active =
        true := by
  refine ⟨?_, ?_, ?_⟩
  · exact (c3_declared_defaults.2.2.1
      ⟨1, ⟨555, 1⟩, ⟨10, 0⟩, none, none⟩
      (RSIDataCreate.mk 1 ⟨555, 1⟩ ⟨10, 0⟩ ⟨0, 0⟩ 14) rfl rfl)
  · have h := c3_declared_defaults.2.2.2.1
      ⟨1, "a", "overbought", none, none, none, none, none, none⟩
      (AlertSettingCreate.mk 1 "a" .overbought ⟨7000, 2⟩ ⟨3000, 2⟩ none
        none true []) rfl
    exact ⟨h.1 rfl, h.2.1 rfl, h.2.2 rfl⟩
  · exact (c3_declared_defaults.2.2.2.2
      ⟨"BTCUSDT", "BTC", "USDT", none⟩ ⟨"BTCUSDT", "BTC", "USDT", true⟩
      rfl rfl 1 (0 : Int))

/-- Claim C4: every update-shape field is optional (the all-absent update
validates), applying an update mutates exactly the supplied fields,
absent fields keep the previous stored values, the all-absent update is
the identity on the stored entity, and no create-time default is
re-applied to an omitted field. -/
theorem c4_partial_update_frame :
    (∀ e : CoinPair, applyCoinPairUpdate e ⟨none, none, none, none⟩ = e) ∧
      (∀ (e : CoinPair) (u : CoinPairUpdateInput), u.symbol = none →
        (applyCoinPairUpdate e u).symbol = e.symbol) ∧
      (∀ (e : CoinPair) (u : CoinPairUpdateInput), u.is_active = none →
        (applyCoinPairUpdate e u).is_active = e.is_active) ∧
      (∀ (e : CoinPair) (u : CoinPairUpdateInput) (s : String),
        u.symbol = some s → (applyCoinPairUpdate e u).symbol = s) ∧
      (∀ e : AlertSetting, applyAlertSettingUpdate e
        ⟨none, none, none, none, none, none, none, none, none⟩ = e) ∧
      (∀ (e : AlertSetting) (u : AlertSettingUpdate),
        u.overbought_threshold = none →
        (applyAlertSettingUpdate e u).overbought_threshold =
          e.overbought_threshold) ∧
      (∀ (e : AlertSetting) (u : AlertSettingUpdate),
        u.custom_threshold = none →
        (applyAlertSettingUpdate e u).custom_threshold =
          e.custom_threshold) ∧
      validateAlertSettingUpdate
          ⟨none, none, none, none, none, none, none, none, none⟩ =
        .ok ⟨none, none, none, none, none, none, none, none, none⟩ := by
  refine ⟨?_, ?_, ?_, ?_, ?_, ?_, ?_, rfl⟩
  · intro e; rfl
  · intro e u h; simp [applyCoinPairUpdate, h]
  · intro e u h; simp [applyCoinPairUpdate, h]
  · intro e u s h; simp [applyCoinPairUpdate, h]
  · intro e; rfl
  · intro e u h; simp [applyAlertSettingUpdate, h]
  · intro e u h; simp [applyAlertSettingUpdate, h]

/-- Witness for claim C4 at a concrete stored entity and updates. -/
theorem c4_partial_update_frame_witness :
    applyCoinPairUpdate ⟨1, "BTCUSDT", "BTC", "USDT", true, 0, 0⟩
        ⟨none, none, none, none⟩ =
      ⟨1, "BTCUSDT", "BTC", "USDT", true, 0, 0⟩ ∧
      (applyCoinPairUpdate ⟨1, "BTCUSDT", "BTC", "USDT", true, 0, 0⟩
        ⟨some "ETHUSDT", none, none, none⟩).symbol = "ETHUSDT" ∧
      (applyCoinPairUpdate ⟨1, "BTCUSDT", "BTC", "USDT", true, 0, 0⟩
        ⟨some "ETHUSDT", none, none, none⟩).is_active = true ∧
      (applyAlertSettingUpdate
        ⟨1, 1, "a", .custom, ⟨8000, 2⟩, ⟨2000, 2⟩, none, none, true, true,
          [], 0, 0⟩
        ⟨none, none, none, none, none, none, none, none,
          none⟩).overbought_threshold = ⟨8000, 2⟩ :=
  ⟨c4_partial_update_frame.1 ⟨1, "BTCUSDT", "BTC", "USDT", true, 0, 0⟩,
    c4_partial_update_frame.2.2.2.1
      ⟨1, "BTCUSDT", "BTC", "USDT", true, 0, 0⟩
      ⟨some "ETHUSDT", none, none, none⟩ "ETHUSDT" rfl,
    c4_partial_update_frame.2.2.1
      ⟨1, "BTCUSDT", "BTC", "USDT", true, 0, 0⟩
      ⟨some "ETHUSDT", none, none, none⟩ rfl,
    c4_partial_update_frame.2.2.2.2.2.1
      ⟨1, 1, "a", .custom, ⟨8000, 2⟩, ⟨2000, 2⟩, none, none, true, true,
        [], 0, 0⟩
      ⟨none, none, none, none, none, none, none, none, none⟩ rfl⟩

/-- Claim C5: a create-shape string field rejects any value strictly
longer than its declared maximum length and accepts values at the
maximum, all other constraints holding: symbol bounded by 50, title by
200, message by 1000 characters. -/
theorem c5_string_length_ceilings :
    (∀ i : CoinPairCreateInput, 50 < i.symbol.length →
        ∃ e, validateCoinPairCreate i = .error e) ∧
      (∀ i : CoinPairCreateInput, i.symbol.length ≤ 50 →
        i.base_asset.length ≤ 20 → i.quote_asset.length ≤ 20 →
        ∃ c, validateCoinPairCreate i = .ok c) ∧
      (∀ n : NotificationCreate, 200 < n.title.length →
        ∃ e, validateNotificationCreate n = .error e) ∧
      (∀ n : NotificationCreate, 1000 < n.message.length →
        ∃ e, validateNotificationCreate n = .error e) ∧
      ∀ n : NotificationCreate, n.title.length ≤ 200 →
        n.message.length ≤ 1000 → validateNotificationCreate n = .ok n := by
  refine ⟨?_, ?_, ?_, ?_, ?_⟩
  · intro i h
    have hs : strOk 50 i.symbol = false := by simp [strOk]; omega
    simp [validateCoinPairCreate, hs]
  · intro i h1 h2 h3
    have g1 : strOk 50 i.symbol = true := by simp [strOk, h1]
    have g2 : strOk 20 i.base_asset = true := by simp [strOk, h2]
    have g3 : strOk 20 i.quote_asset = true := by simp [strOk, h3]
    simp [validateCoinPairCreate, g1, g2, g3]
  · intro n h
    have hs : strOk 200 n.title = false := by simp [strOk]; omega
    simp [validateNotificationCreate, hs]
  · intro n h
    have hs : strOk 1000 n.message = false := by simp [strOk]; omega
    by_cases ht : strOk 200 n.title
    · simp [validateNotificationCreate, hs, ht]
    · simp [validateNotificationCreate, hs, ht]
  · intro n h1 h2
    have g1 : strOk 200 n.title = true := by simp [strOk, h1]
    have g2 : strOk 1000 n.message = true := by simp [strOk, h2]
    simp [validateNotificationCreate, g1, g2]

/-- Witness for claim C5: a 51-character symbol is rejected while a
50-character symbol is accepted, and an over-length title is rejected. -/
theorem c5_string_length_ceilings_witness :
    (∃ e, validateCoinPairCreate
        ⟨String.mk (List.replicate 51 'a'), "BTC", "USDT", none⟩ =
      .error e) ∧
      (∃ c, validateCoinPairCreate
        ⟨String.mk (List.replicate 50 'a'), "BTC", "USDT", none⟩ =
      .ok c) ∧
      ∃ e, validateNotificationCreate
        ⟨1, 1, 1, String.mk (List.replicate 201 't'), "m", ⟨555, 1⟩,
          ⟨10, 0⟩⟩ = .error e :=
  ⟨c5_string_length_ceilings.1
      ⟨String.mk (List.replicate 51 'a'), "BTC", "USDT", none⟩ (by decide),
    c5_string_length_ceilings.2.1
      ⟨String.mk (List.replicate 50 'a'), "BTC", "USDT", none⟩ (by decide)
      (by decide) (by decide),
    c5_string_length_ceilings.2.2.1
      ⟨1, 1, 1, String.mk (List.replicate 201 't'), "m", ⟨555, 1⟩,
        ⟨10, 0⟩⟩ (by
          show 200 < (List.replicate 201 't').length
          rw [List.length_replicate]
          omega)⟩

/-- Claim C6: an enum-typed field accepts a raw value exactly when it is
a declared member — overbought, oversold or custom for `AlertCondition`;
pending, sent or dismissed for `NotificationStatus` — and a create or
update input supplying any other condition string is rejected with a
validation error, while accepted inputs carry a declared member. -/
theorem c6_enum_membership :
    (∀ s : String, (AlertCondition.ofString s).isSome = true ↔
        s = "overbought" ∨ s = "oversold" ∨ s = "custom") ∧
      (∀ s : String, (NotificationStatus.ofString s).isSome = true ↔
        s = "pending" ∨ s = "sent" ∨ s = "dismissed") ∧
      (∀ i : AlertSettingCreateInput,
        AlertCondition.ofString i.condition = none →
        ∃ e, validateAlertSettingCreate i = .error e) ∧
      (∀ (i : AlertSettingUpdateInput) (s : String), i.condition = some s →
        AlertCondition.ofString s = none →
        ∃ e, validateAlertSettingUpdate i = .error e) ∧
      ∀ (i : AlertSettingCreateInput) (v : AlertSettingCreate),
        validateAlertSettingCreate i = .ok v →
        i.condition = AlertCondition.toStr v.condition := by
  refine ⟨alertOfString_isSome_iff,
    statusOfString_isSome_iff, ?_, ?_, ?_⟩
  · intro i h
    exact validateAlertSettingCreate_rejects_condition h
  · intro i s hs hc
    exact validateAlertSettingUpdate_rejects_condition hs hc
  · intro i v hok
    exact AlertCondition.ofString_some (validateAlertSettingCreate_ok_proj hok).2.2.1

/-- Witness for claim C6: the member string custom parses, a non-member
string is rejected by the create and the update validators, and an
accepted create input carries the member it named. -/
theorem c6_enum_membership_witness :
    ((AlertCondition.ofString "custom").isSome = true) ∧
      (∃ e, validateAlertSettingCreate
        ⟨1, "a", "bogus", none, none, none, none, none, none⟩ =
      .error e) ∧
      (∃ e, validateAlertSettingUpdate
        ⟨none, some "bogus", none, none, none, none, none, none, none⟩ =
      .error e) ∧
      "overbought" = AlertCondition.toStr AlertCondition.overbought :=
  ⟨(c6_enum_membership.1 "custom").mpr (Or.inr (Or.inr rfl)),
    c6_enum_membership.2.2.1
      ⟨1, "a", "bogus", none, none, none, none, none, none⟩ rfl,
    c6_enum_membership.2.2.2.1
      ⟨none, some "bogus", none, none, none, none, none, none, none⟩
      "bogus" rfl rfl,
    c6_enum_membership.2.2.2.2
      ⟨1, "a", "overbought", none, none, none, none, none, none⟩
      (AlertSettingCreate.mk 1 "a" .overbought ⟨7000, 2⟩ ⟨3000, 2⟩ none
        none true []) rfl⟩

/-- Witness for claim C7: a permitted transition leaves pending and does
not target it, and the only run of permitted transitions ending at
pending is the empty run from pending. -/
theorem c7_status_monotonic_witness :
    (NotificationStatus.pending = NotificationStatus.pending ∧
        NotificationStatus.sent ≠ NotificationStatus.pending) ∧
      NotificationStatus.pending = NotificationStatus.pending ∧
        ([] : List NotificationStatus) = [] :=
  ⟨c7_status_monotonic.2.2.1 .pending .sent rfl,
    c7_status_monotonic.2.2.2 .pending [] .pending rfl rfl⟩

/-- Claim C10: omitting `volume` on an RSI sample create yields the exact
decimal zero through to the stored row, and omitting `coin_pair_filters`
on an alert-setting create yields the empty list. -/
theorem c10_unstated_defaults :
    (∀ (i : RSIDataCreateInput) (r : RSIDataCreate), i.volume = none →
        validateRSIDataCreate i = .ok r →
        r.volume = ⟨0, 0⟩ ∧ ∀ (idv : Int) (now : DTime),
          (mkRSIData r idv now).volume = ⟨0, 0⟩) ∧
      ∀ (a : AlertSettingCreateInput) (v : AlertSettingCreate),
        a.coin_pair_filters = none → validateAlertSettingCreate a = .ok v →
        v.coin_pair_filters = [] := by
  constructor
  · intro i r hv hok
    unfold validateRSIDataCreate at hok
    have hr := Except.ok.inj hok
    subst hr
    constructor
    · simp [hv]
    · intro idv now; simp [mkRSIData, hv]
  · intro a v hf hok
    rw [(validateAlertSettingCreate_ok_proj hok).2.2.2.2.2.2.2.2, hf]
    rfl

/-- Witness for claim C10 at concrete inputs omitting `volume` and
`coin_pair_filters`. -/
theorem c10_unstated_defaults_witness :
    ((RSIDataCreate.mk 1 ⟨555, 1⟩ ⟨10, 0⟩ ⟨0, 0⟩ 14).volume = ⟨0, 0⟩ ∧
        ∀ (idv : Int) (now : DTime),
          (mkRSIData (RSIDataCreate.mk 1 ⟨555, 1⟩ ⟨10, 0⟩ ⟨0, 0⟩ 14) idv
            now).volume = ⟨0, 0⟩) ∧
      (AlertSettingCreate.mk 1 "a" .overbought ⟨7000, 2⟩ ⟨3000, 2⟩ none
        none true []).coin_pair_filters = [] :=
  ⟨c10_unstated_defaults.1 ⟨1, ⟨555, 1⟩, ⟨10, 0⟩, none, none⟩
      (RSIDataCreate.mk 1 ⟨555, 1⟩ ⟨10, 0⟩ ⟨0, 0⟩ 14) rfl rfl,
    c10_unstated_defaults.2
      ⟨1, "a", "overbought", none, none, none, none, none, none⟩
      (AlertSettingCreate.mk 1 "a" .overbought ⟨7000, 2⟩ ⟨3000, 2⟩ none
        none true []) rfl rfl⟩

end RSIDash
